import Mathlib

/-
  Verification of the Minumate meeting-management frontend against its
  natural-language specification.

  The definitions below are a shallow embedding of the relevant parts of the
  React frontend:
  * `Wrapper` and the table `apiWrappers` embed every request wrapper of
    src/frontend/src/contexts/ApiContext.js (URL template, HTTP method, which
    headers the wrapper builds, which error field of a failed response it
    consults, and its fixed fallback message).
  * `handleAnalyzeEvents` / `handleSendEmailEvents` embed the user-facing
    control flow of pages/Home.js handleAnalyze and
    components/EmailGeneration.js handleSendEmail as event traces.
  * `protectedRoute` embeds the ProtectedRoute component of the application
    root (src/unnamed/part_006).
  * `handleFileUpload` embeds components/TranscriptInput.js.
  * `userMatches` / `filteredUsers` embed the user filter of pages/Admin.js.
  * `trackOpenHit` is modelled from the spec (the backend is not in src/).

  JavaScript string truthiness (empty string is falsy, as used by the `||`
  fallbacks and `!x` guards in the source) is modelled by `jsOrString` and by
  explicit `= ""` tests.
-/

namespace Minumate

/-- JS `a || b` on an optional string `a` (absent or empty string is falsy). -/
def jsOrString : Option String → String → String
  | some v, d => if v = "" then d else v
  | none, d => d

/-- Whether `hay` begins with `needle` (on character lists). -/
def leadsWith : List Char → List Char → Bool
  | [], _ => true
  | _ :: _, [] => false
  | a :: as, b :: bs => (a == b) && leadsWith as bs

/-- Whether `needle` occurs contiguously inside `hay` (on character lists):
the semantics of JS `String.prototype.includes`. -/
def occursIn (needle : List Char) : List Char → Bool
  | [] => needle.isEmpty
  | c :: cs => leadsWith needle (c :: cs) || occursIn needle cs

inductive HttpMethod
  | get
  | post
  | put
  | delete
deriving DecidableEq, Repr

/-- One segment of a template-literal URL: either literal text or an
interpolated JavaScript expression (named after the source expression). -/
inductive Seg
  | lit (s : String)
  | param (s : String)
deriving DecidableEq, Repr

/-- Which field of a failed response body the wrapper's catch block reads:
`error.response?.data?.detail` or `error.response?.data?.error`. -/
inductive ErrField
  | detail
  | err
deriving DecidableEq, Repr

/-- One ApiContext wrapper function (src/frontend/src/contexts/ApiContext.js):
its HTTP method, URL template after the API base, whether the wrapper puts an
explicit JSON Content-Type header in its `headers` object, whether it spreads
`getAuthHeaders()` into that object, and the error mapping of its catch
block. -/
structure Wrapper where
  name : String
  method : HttpMethod
  path : List Seg
  contentTypeJson : Bool
  sendsAuth : Bool
  errField : ErrField
  genericMsg : String
deriving DecidableEq, Repr

/-- ApiContext.js lines 8-11: the bearer header when a token is in
localStorage, and no header otherwise. -/
def getAuthHeaders : Option String → List (String × String)
  | some t => [("Authorization", "Bearer " ++ t)]
  | none => []

/-- The headers object a wrapper passes to axios, given the localStorage
token: an explicit JSON Content-Type entry when the source writes one,
followed by the spread of `getAuthHeaders()` when the source spreads it. -/
def wrapperHeaders (w : Wrapper) (token : Option String) : List (String × String) :=
  (if w.contentTypeJson then [("Content-Type", "application/json")] else []) ++
  (if w.sendsAuth then getAuthHeaders token else [])

def analyzeTranscript : Wrapper :=
  { name := "analyzeTranscript", method := HttpMethod.post
    path := [Seg.lit "/api/analyze"]
    contentTypeJson := true, sendsAuth := true
    errField := ErrField.detail, genericMsg := "Failed to analyze transcript" }

def analyzeTranscriptAjax : Wrapper :=
  { name := "analyzeTranscriptAjax", method := HttpMethod.post
    path := [Seg.lit "/analyze_ajax"]
    contentTypeJson := false, sendsAuth := true
    errField := ErrField.err, genericMsg := "Failed to analyze transcript" }

def sendEmail : Wrapper :=
  { name := "sendEmail", method := HttpMethod.post
    path := [Seg.lit "/send_email"]
    contentTypeJson := false, sendsAuth := true
    errField := ErrField.err, genericMsg := "Failed to send email" }

def getEmailStatus : Wrapper :=
  { name := "getEmailStatus", method := HttpMethod.get
    path := [Seg.lit "/email_status/", Seg.param "trackingId"]
    contentTypeJson := false, sendsAuth := false
    errField := ErrField.err, genericMsg := "Failed to get email status" }

def getEmailsAdmin : Wrapper :=
  { name := "getEmailsAdmin", method := HttpMethod.get
    path := [Seg.lit "/admin/api/emails?", Seg.param "queryParams"]
    contentTypeJson := false, sendsAuth := false
    errField := ErrField.err, genericMsg := "Failed to get emails" }

def getEmailDetails : Wrapper :=
  { name := "getEmailDetails", method := HttpMethod.get
    path := [Seg.lit "/admin/api/email/", Seg.param "trackingId"]
    contentTypeJson := false, sendsAuth := false
    errField := ErrField.err, genericMsg := "Failed to get email details" }

def cleanupEmails : Wrapper :=
  { name := "cleanupEmails", method := HttpMethod.delete
    path := [Seg.lit "/admin/api/cleanup/", Seg.param "days"]
    contentTypeJson := false, sendsAuth := false
    errField := ErrField.err, genericMsg := "Failed to cleanup emails" }

def getAllUsers : Wrapper :=
  { name := "getAllUsers", method := HttpMethod.get
    path := [Seg.lit "/api/admin/users"]
    contentTypeJson := false, sendsAuth := true
    errField := ErrField.detail, genericMsg := "Failed to get users" }

def updateUser : Wrapper :=
  { name := "updateUser", method := HttpMethod.put
    path := [Seg.lit "/api/admin/users/", Seg.param "userId"]
    contentTypeJson := true, sendsAuth := true
    errField := ErrField.detail, genericMsg := "Failed to update user" }

def deleteUser : Wrapper :=
  { name := "deleteUser", method := HttpMethod.delete
    path := [Seg.lit "/api/admin/users/", Seg.param "userId"]
    contentTypeJson := false, sendsAuth := true
    errField := ErrField.detail, genericMsg := "Failed to delete user" }

def getAllMeetings : Wrapper :=
  { name := "getAllMeetings", method := HttpMethod.get
    path := [Seg.lit "/api/admin/meetings"]
    contentTypeJson := false, sendsAuth := true
    errField := ErrField.detail, genericMsg := "Failed to get meetings" }

def getMeetingDetails : Wrapper :=
  { name := "getMeetingDetails", method := HttpMethod.get
    path := [Seg.lit "/api/admin/meetings/", Seg.param "meetingId"]
    contentTypeJson := false, sendsAuth := true
    errField := ErrField.detail, genericMsg := "Failed to get meeting details" }

def createMeeting : Wrapper :=
  { name := "createMeeting", method := HttpMethod.post
    path := [Seg.lit "/api/admin/meetings"]
    contentTypeJson := true, sendsAuth := true
    errField := ErrField.detail, genericMsg := "Failed to create meeting" }

def updateMeeting : Wrapper :=
  { name := "updateMeeting", method := HttpMethod.put
    path := [Seg.lit "/api/admin/meetings/", Seg.param "meetingId"]
    contentTypeJson := true, sendsAuth := true
    errField := ErrField.detail, genericMsg := "Failed to update meeting" }

def deleteMeeting : Wrapper :=
  { name := "deleteMeeting", method := HttpMethod.delete
    path := [Seg.lit "/api/admin/meetings/", Seg.param "meetingId"]
    contentTypeJson := false, sendsAuth := true
    errField := ErrField.detail, genericMsg := "Failed to delete meeting" }

def addMeetingParticipant : Wrapper :=
  { name := "addMeetingParticipant", method := HttpMethod.post
    path := [Seg.lit "/api/admin/meetings/", Seg.param "meetingId", Seg.lit "/participants"]
    contentTypeJson := true, sendsAuth := true
    errField := ErrField.detail, genericMsg := "Failed to add participant" }

def removeMeetingParticipant : Wrapper :=
  { name := "removeMeetingParticipant", method := HttpMethod.delete
    path := [Seg.lit "/api/admin/meetings/", Seg.param "meetingId",
             Seg.lit "/participants/", Seg.param "userId"]
    contentTypeJson := false, sendsAuth := true
    errField := ErrField.detail, genericMsg := "Failed to remove participant" }

def getAllProjects : Wrapper :=
  { name := "getAllProjects", method := HttpMethod.get
    path := [Seg.lit "/api/admin/projects"]
    contentTypeJson := false, sendsAuth := true
    errField := ErrField.detail, genericMsg := "Failed to get projects" }

def getProjectDetails : Wrapper :=
  { name := "getProjectDetails", method := HttpMethod.get
    path := [Seg.lit "/api/admin/projects/", Seg.param "projectId"]
    contentTypeJson := false, sendsAuth := true
    errField := ErrField.detail, genericMsg := "Failed to get project details" }

def createProject : Wrapper :=
  { name := "createProject", method := HttpMethod.post
    path := [Seg.lit "/api/admin/projects"]
    contentTypeJson := true, sendsAuth := true
    errField := ErrField.detail, genericMsg := "Failed to create project" }

def updateProject : Wrapper :=
  { name := "updateProject", method := HttpMethod.put
    path := [Seg.lit "/api/admin/projects/", Seg.param "projectId"]
    contentTypeJson := true, sendsAuth := true
    errField := ErrField.detail, genericMsg := "Failed to update project" }

def deleteProject : Wrapper :=
  { name := "deleteProject", method := HttpMethod.delete
    path := [Seg.lit "/api/admin/projects/", Seg.param "projectId"]
    contentTypeJson := false, sendsAuth := true
    errField := ErrField.detail, genericMsg := "Failed to delete project" }

def linkMeetingToProject : Wrapper :=
  { name := "linkMeetingToProject", method := HttpMethod.post
    path := [Seg.lit "/api/admin/projects/", Seg.param "projectId",
             Seg.lit "/meetings/", Seg.param "meetingId"]
    contentTypeJson := false, sendsAuth := true
    errField := ErrField.detail, genericMsg := "Failed to link meeting to project" }

def unlinkMeetingFromProject : Wrapper :=
  { name := "unlinkMeetingFromProject", method := HttpMethod.delete
    path := [Seg.lit "/api/admin/projects/", Seg.param "projectId",
             Seg.lit "/meetings/", Seg.param "meetingId"]
    contentTypeJson := false, sendsAuth := true
    errField := ErrField.detail, genericMsg := "Failed to unlink meeting from project" }

def getUnlinkedMeetings : Wrapper :=
  { name := "getUnlinkedMeetings", method := HttpMethod.get
    path := [Seg.lit "/api/admin/projects/", Seg.param "projectId",
             Seg.lit "/unlinked-meetings"]
    contentTypeJson := false, sendsAuth := true
    errField := ErrField.detail, genericMsg := "Failed to get unlinked meetings" }

def getMeetingProjects : Wrapper :=
  { name := "getMeetingProjects", method := HttpMethod.get
    path := [Seg.lit "/api/admin/meetings/", Seg.param "meetingId", Seg.lit "/projects"]
    contentTypeJson := false, sendsAuth := true
    errField := ErrField.detail, genericMsg := "Failed to get meeting projects" }

def getManagerProjects : Wrapper :=
  { name := "getManagerProjects", method := HttpMethod.get
    path := [Seg.lit "/api/manager/projects"]
    contentTypeJson := false, sendsAuth := true
    errField := ErrField.detail, genericMsg := "Failed to get projects" }

def getManagerMeetings : Wrapper :=
  { name := "getManagerMeetings", method := HttpMethod.get
    path := [Seg.lit "/api/manager/meetings"]
    contentTypeJson := false, sendsAuth := true
    errField := ErrField.detail, genericMsg := "Failed to get meetings" }

def getManagerProjectDetails : Wrapper :=
  { name := "getManagerProjectDetails", method := HttpMethod.get
    path := [Seg.lit "/api/manager/projects/", Seg.param "projectId"]
    contentTypeJson := false, sendsAuth := true
    errField := ErrField.detail, genericMsg := "Failed to get project details" }

def getManagerProjectMeetings : Wrapper :=
  { name := "getManagerProjectMeetings", method := HttpMethod.get
    path := [Seg.lit "/api/manager/projects/", Seg.param "projectId", Seg.lit "/meetings"]
    contentTypeJson := false, sendsAuth := true
    errField := ErrField.detail, genericMsg := "Failed to get project meetings" }

def analyzeAndCreateTrelloCards : Wrapper :=
  { name := "analyzeAndCreateTrelloCards", method := HttpMethod.post
    path := [Seg.lit "/api/analyze_and_create_trello_cards"]
    contentTypeJson := true, sendsAuth := true
    errField := ErrField.detail, genericMsg := "Failed to analyze and create Trello cards" }

/-- All wrapper functions defined in ApiContext.js, in source order. -/
def apiWrappers : List Wrapper :=
  [analyzeTranscript, analyzeTranscriptAjax, sendEmail, getEmailStatus,
   getEmailsAdmin, getEmailDetails, cleanupEmails, getAllUsers, updateUser,
   deleteUser, getAllMeetings, getMeetingDetails, createMeeting, updateMeeting,
   deleteMeeting, addMeetingParticipant, removeMeetingParticipant,
   getAllProjects, getProjectDetails, createProject, updateProject,
   deleteProject, linkMeetingToProject, unlinkMeetingFromProject,
   getUnlinkedMeetings, getMeetingProjects, getManagerProjects,
   getManagerMeetings, getManagerProjectDetails, getManagerProjectMeetings,
   analyzeAndCreateTrelloCards]

/-- The JSON body of a failed response, restricted to the two fields any
wrapper consults. An absent field is `none`. -/
structure RespBody where
  detail : Option String
  error : Option String
deriving DecidableEq, Repr

/-- The field `error.response?.data?.detail` or `...?.error` that the
wrapper's catch block reads from a failed response. -/
def selectedErrField (w : Wrapper) (b : RespBody) : Option String :=
  match w.errField with
  | ErrField.detail => b.detail
  | ErrField.err => b.error

/-- The message of the Error a wrapper throws when its request fails:
`error.response?.data?.<field> || '<generic message>'`. -/
def errMessage (w : Wrapper) (b : RespBody) : String :=
  jsOrString (selectedErrField w b) w.genericMsg

/-- A wrapper's catch block always rethrows: on request failure the wrapper
never produces a value, only a thrown Error. -/
def wrapperFailureResult (w : Wrapper) (b : RespBody) : Except String Unit :=
  Except.error (errMessage w b)

/-- Admin.js loadEmails, catch block (lines 221-224): whatever message the
wrapper threw, the page toasts the fixed string. -/
def loadEmailsCatchToast (_thrown : String) : String := "Failed to load emails"

/-- Home.js handleAnalyze, catch block (lines 40-43): the page toasts
`error.message`, the thrown message itself. -/
def homeAnalyzeCatchToast (thrown : String) : String := thrown

/-- UserDashboard.js loadUserData and updateTaskStatus, and the meeting-detail
fetch of src/unnamed/part_004: URL templates of the direct `fetch` calls. -/
def userDashboardFetchPaths : List (List Seg) :=
  [[Seg.lit "/api/user/meetings"],
   [Seg.lit "/api/user/tasks"],
   [Seg.lit "/api/user/tasks/", Seg.param "taskId"],
   [Seg.lit "/api/user/meetings/", Seg.param "meetingId"]]

/-- The two direct `fetch` calls of the EmailGeneration variant in
src/unnamed/part_003 (lines 569 and 587). -/
def emailGenerationFetchPaths : List (List Seg) :=
  [[Seg.lit "/api/admin/users"], [Seg.lit "/api/admin/meetings"]]

/-- Every request URL template issued by frontend code under src/:
all ApiContext wrappers plus the direct fetch calls. -/
def frontendRequestPaths : List (List Seg) :=
  apiWrappers.map Wrapper.path ++ userDashboardFetchPaths ++ emailGenerationFetchPaths

/-- Whether a URL-template segment mentions the tracking-pixel route
`/track/open`. Interpolated expressions are runtime identifiers and page
numbers, never route text. -/
def segMentionsTrackOpen : Seg → Bool
  | Seg.lit s => occursIn "/track/open".data s.data
  | Seg.param _ => false

def targetsTrackOpen (p : List Seg) : Bool := p.any segMentionsTrackOpen

/-- A toast notification as fired by react-toastify. -/
inductive Toast
  | error (msg : String)
  | success (msg : String)
  | info (msg : String)
deriving DecidableEq, Repr

/- UserDashboard task controls (components/UserDashboard.js lines 197-216). -/

inductive TaskButton
  | start
  | complete
deriving DecidableEq, Repr

/-- The task status enumeration of the spec. -/
def taskStatusEnum : List String := ["pending", "in_progress", "completed"]

/-- The status-update buttons UserDashboard renders for a task with the given
status: the whole button group only when the status is not 'completed', the
Start button inside it only when the status is 'pending', the Complete button
always inside it. -/
def renderedTaskButtons (status : String) : List TaskButton :=
  if status ≠ "completed" then
    (if status = "pending" then [TaskButton.start] else []) ++ [TaskButton.complete]
  else []

/-- The status each button submits via `updateTaskStatus(task.id, ...)`. -/
def taskButtonSubmits : TaskButton → String
  | TaskButton.start => "in_progress"
  | TaskButton.complete => "completed"

/- Project status enumeration and badge mappings (pages/Admin.js and the
Manager page in src/unnamed/part_001). -/

/-- The option values of the Admin project form's status select
(Admin.js lines 66-69), in source order. -/
def projectFormStatusOptions : List String :=
  ["active", "completed", "on_hold", "cancelled"]

/-- Admin.js getStatusBadgeVariant (lines 487-495). -/
def getStatusBadgeVariant (status : String) : String :=
  if status = "active" then "success"
  else if status = "completed" then "primary"
  else if status = "on_hold" then "warning"
  else if status = "cancelled" then "danger"
  else "secondary"

/-- The `variants` object literal of the Manager page's getStatusBadge
(src/unnamed/part_001 lines 68-73). -/
def managerStatusVariants : List (String × String) :=
  [("active", "success"), ("completed", "primary"),
   ("on_hold", "warning"), ("cancelled", "danger")]

/-- The badge background computed by the Manager page's getStatusBadge:
`variants[status] || 'secondary'`. -/
def managerGetStatusBadgeBg (status : String) : String :=
  jsOrString (managerStatusVariants.lookup status) "secondary"

/- Home.handleAnalyze and EmailGeneration.handleSendEmail as event traces
(pages/Home.js lines 15-47; components/EmailGeneration.js lines 94-121, with
the same control flow in src/unnamed/part_003 lines 156-204). -/

inductive UiEvent
  | request (path : String)
  | toastError (msg : String)
  | toastSuccess (msg : String)
  | toastInfo (msg : String)
  | delayMs (n : Nat)
deriving DecidableEq, Repr

/-- The response body of a successful /analyze_ajax call, restricted to the
fields Home.handleAnalyze reads. -/
structure AnalyzeResp where
  success : Bool
  error : Option String
deriving DecidableEq, Repr

/-- The response body of a successful /send_email call, restricted to the
fields handleSendEmail reads. -/
structure SendResp where
  success : Bool
  message : String
  tracking_id : String
deriving DecidableEq, Repr

/-- Outcome of the single awaited HTTP call of an invocation: the request
failed (axios threw, carrying the response body), or it returned `resp`. -/
inductive HttpResult (α : Type)
  | failure (body : RespBody)
  | ok (resp : α)

/-- The user-visible events of one invocation of Home.handleAnalyze: exactly
one request; on failure the wrapper's thrown message is toasted once; on a
response with `success` false the Error built from `data.error || ...` is
caught by the same catch and toasted once; on success a success toast and the
100 ms scroll timeout. -/
def handleAnalyzeEvents : HttpResult AnalyzeResp → List UiEvent
  | HttpResult.failure body =>
      [UiEvent.request "/analyze_ajax",
       UiEvent.toastError (errMessage analyzeTranscriptAjax body)]
  | HttpResult.ok r =>
      if r.success then
        [UiEvent.request "/analyze_ajax",
         UiEvent.toastSuccess "Meeting transcript analyzed successfully!",
         UiEvent.delayMs 100]
      else
        [UiEvent.request "/analyze_ajax",
         UiEvent.toastError (jsOrString r.error "Failed to analyze transcript")]

/-- The email fields handleSendEmail validates before sending. -/
structure EmailFields where
  recipient_email : String
  subject : String
  content : String
deriving DecidableEq, Repr

/-- The user-visible events of one invocation of
EmailGeneration.handleSendEmail: an empty required field aborts with one
error toast and no request; otherwise exactly one request, with one error
toast on failure or on `response.success` false, and a success toast plus the
tracking-id info toast on success. -/
def handleSendEmailEvents (f : EmailFields) (r : HttpResult SendResp) : List UiEvent :=
  if f.recipient_email = "" ∨ f.subject = "" ∨ f.content = "" then
    [UiEvent.toastError "Please fill in all email fields"]
  else
    match r with
    | HttpResult.failure body =>
        [UiEvent.request "/send_email",
         UiEvent.toastError ("Error sending email: " ++ errMessage sendEmail body)]
    | HttpResult.ok resp =>
        if resp.success then
          [UiEvent.request "/send_email",
           UiEvent.toastSuccess resp.message,
           UiEvent.toastInfo ("Tracking ID: " ++ resp.tracking_id)]
        else
          [UiEvent.request "/send_email",
           UiEvent.toastError "Failed to send email"]

def isRequestEv : UiEvent → Bool
  | UiEvent.request _ => true
  | _ => false

def isErrorToastEv : UiEvent → Bool
  | UiEvent.toastError _ => true
  | _ => false

def isDelayEv : UiEvent → Bool
  | UiEvent.delayMs _ => true
  | _ => false

def requestCount (evs : List UiEvent) : Nat := (evs.filter isRequestEv).length

def errorToastCount (evs : List UiEvent) : Nat := (evs.filter isErrorToastEv).length

def delayCount (evs : List UiEvent) : Nat := (evs.filter isDelayEv).length

/- Email tracking (backend). -/

/-- Modelled from the spec: the FastAPI route handler for the tracking pixel
(GET /track/open/:id) and its database layer are not under src/; only the
backend READMEs (src/unnamed/part_008 and part_009) and the spec describe
them. An email row carries the open flag, open counter, last-opened
timestamp, and logged events shown by the Admin analytics tab. -/
structure EmailRow where
  tracking_id : String
  opened : Bool
  open_count : Nat
  last_opened : Option Nat
  events : List (String × Nat)
deriving DecidableEq, Repr

/-- Modelled from the spec: a hit on the 1x1 tracking-pixel URL embedded in an
outgoing email is logged as an "open" event, incrementing the email's open
counter / timestamp row. -/
def trackOpenHit (e : EmailRow) (now : Nat) : EmailRow :=
  { e with
    opened := true
    open_count := e.open_count + 1
    last_opened := some now
    events := e.events ++ [("open", now)] }

/- ProtectedRoute (src/unnamed/part_006 lines 132-154 and the route table at
lines 188-215). -/

structure AuthUser where
  role : String
deriving DecidableEq, Repr

/-- The AuthContext state ProtectedRoute consults. -/
structure AuthState where
  loading : Bool
  isAuthenticated : Bool
  user : Option AuthUser
deriving DecidableEq, Repr

/-- What a route element renders. -/
inductive Rendered
  | spinner
  | redirect (dest : String)
  | children
deriving DecidableEq, Repr

/-- JS optional chaining `user?.role`. -/
def optChainRole : Option AuthUser → Option String
  | some u => some u.role
  | none => none

/-- The ProtectedRoute component: spinner while auth state is loading, a
redirect to /auth when unauthenticated, a redirect to /dashboard when the
route is adminOnly and `user?.role !== 'admin'`, and the children
otherwise. -/
def protectedRoute (adminOnly : Bool) (s : AuthState) : Rendered :=
  if s.loading then Rendered.spinner
  else if ¬ s.isAuthenticated then Rendered.redirect "/auth"
  else if adminOnly ∧ optChainRole s.user ≠ some "admin" then Rendered.redirect "/dashboard"
  else Rendered.children

/-- The routes AppContent wraps in ProtectedRoute, with their adminOnly
flag. -/
def protectedRoutes : List (String × Bool) :=
  [("/dashboard", false), ("/", true), ("/admin", true)]

/- TranscriptInput.handleFileUpload (components/TranscriptInput.js
lines 9-30). -/

/-- The properties of `event.target.files[0]` that handleFileUpload reads,
plus the text content FileReader would produce. -/
structure SelectedFile where
  ftype : String
  size : Nat
  name : String
  content : String
deriving DecidableEq, Repr

/-- The component state handleFileUpload can change. -/
structure TIState where
  transcript : String
  file : Option SelectedFile
deriving DecidableEq, Repr

/-- TranscriptInput.handleFileUpload: no selected file does nothing; a file
whose MIME type is not text/plain, or larger than 5 * 1024 * 1024 bytes, is
rejected with an error toast and no state change; otherwise the file's text
replaces the transcript, the file is stored, and a success toast fires. -/
def handleFileUpload (s : TIState) (f : Option SelectedFile) : TIState × List Toast :=
  match f with
  | none => (s, [])
  | some sf =>
    if sf.ftype ≠ "text/plain" then
      (s, [Toast.error "Please select a .txt file"])
    else if sf.size > 5 * 1024 * 1024 then
      (s, [Toast.error "File size must be less than 5MB"])
    else
      ({ transcript := sf.content, file := some sf },
       [Toast.success ("File \"" ++ sf.name ++ "\" loaded successfully")])

/- Admin user filtering (pages/Admin.js lines 270-280). -/

/-- The user fields Admin's filter consults. -/
structure UserRow where
  full_name : String
  email : String
  username : String
  status : String
  role : String
deriving DecidableEq, Repr

/-- The three user filters of the Admin page. -/
structure UserFilters where
  search : String
  status : String
  role : String
deriving DecidableEq, Repr

/-- JS `hay.toLowerCase().includes(needle.toLowerCase())`. -/
def jsIncludesLower (hay needle : String) : Bool :=
  occursIn needle.toLower.data hay.toLower.data

/-- The filter predicate of Admin's filteredUsers: matchesSearch (an empty
search matches everything, otherwise the search must occur in the lowercased
full name, email, or username), matchesStatus and matchesRole (an empty
filter matches everything, otherwise equality). -/
def userMatches (flt : UserFilters) (u : UserRow) : Bool :=
  ((flt.search == "") || jsIncludesLower u.full_name flt.search
      || jsIncludesLower u.email flt.search
      || jsIncludesLower u.username flt.search)
  && ((flt.status == "") || (u.status == flt.status))
  && ((flt.role == "") || (u.role == flt.role))

/-- Admin.js: `const filteredUsers = users.filter(user => ...)`. -/
def filteredUsers (flt : UserFilters) (users : List UserRow) : List UserRow :=
  users.filter (userMatches flt)

/- Helper lemmas. -/

/-- `leadsWith` decides "hay starts with needle". -/
theorem leadsWith_iff (needle hay : List Char) :
    leadsWith needle hay = true ↔ ∃ r, hay = needle ++ r := by
  induction needle generalizing hay with
  | nil => simp [leadsWith]
  | cons a as ih =>
    cases hay with
    | nil => simp [leadsWith]
    | cons b bs =>
      simp only [leadsWith, Bool.and_eq_true, beq_iff_eq, ih, List.cons_append,
        List.cons.injEq]
      constructor
      · rintro ⟨hab, r, hr⟩
        exact ⟨r, hab.symm, hr⟩
      · rintro ⟨r, hba, hr⟩
        exact ⟨hba.symm, r, hr⟩

/-- `occursIn` decides contiguous-substring occurrence. -/
theorem occursIn_iff (needle hay : List Char) :
    occursIn needle hay = true ↔ ∃ l r, hay = l ++ needle ++ r := by
  induction hay with
  | nil =>
    simp only [occursIn, List.isEmpty_iff]
    constructor
    · rintro rfl
      exact ⟨[], [], rfl⟩
    · rintro ⟨l, r, hr⟩
      rcases List.append_eq_nil.mp (List.append_eq_nil.mp hr.symm).1 with ⟨-, h⟩
      exact h
  | cons c cs ih =>
    simp only [occursIn, Bool.or_eq_true, leadsWith_iff, ih]
    constructor
    · rintro (⟨r, hr⟩ | ⟨l, r, hr⟩)
      · exact ⟨[], r, by simp [hr]⟩
      · exact ⟨c :: l, r, by simp [hr]⟩
    · rintro ⟨l, r, hr⟩
      cases l with
      | nil =>
        left
        exact ⟨r, by simpa using hr⟩
      | cons x xs =>
        right
        simp only [List.cons_append, List.cons.injEq] at hr
        exact ⟨xs, r, hr.2⟩

/- Claim theorems. -/

/-- Claim C1, counterexample: the claim says no ApiContext wrapper issues its
request without the Authorization header when a token exists, but
getEmailStatus is a wrapper in ApiContext.js and its request carries no
headers at all even when a token is present. -/
theorem C1_counterexample_no_auth_header :
    getEmailStatus ∈ apiWrappers ∧
    wrapperHeaders getEmailStatus (some "tok") = [] := by decide

/-- Claim C1 as amended: every ApiContext wrapper that spreads
getAuthHeaders() into its headers attaches the bearer token whenever a token
is present, and the only wrappers that do not are the four legacy
email-tracking wrappers getEmailStatus, getEmailsAdmin, getEmailDetails and
cleanupEmails, which issue their requests with no Authorization header. -/
theorem C1_amended_bearer_header :
    (∀ w ∈ apiWrappers, w.sendsAuth = true → ∀ t : String,
      ("Authorization", "Bearer " ++ t) ∈ wrapperHeaders w (some t)) ∧
    (∀ w ∈ apiWrappers, w.sendsAuth = false →
      w.name ∈ ["getEmailStatus", "getEmailsAdmin", "getEmailDetails", "cleanupEmails"]) := by
  constructor
  · intro w _ hs t
    simp [wrapperHeaders, getAuthHeaders, hs]
  · decide

/-- Claim C1 witness: the amended theorem applied to the getAllUsers wrapper
and the token "tok". -/
theorem C1_amended_bearer_header_witness :
    ("Authorization", "Bearer " ++ "tok") ∈ wrapperHeaders getAllUsers (some "tok") :=
  C1_amended_bearer_header.1 getAllUsers (by decide) rfl "tok"

/-- Claim C2, counterexample: the wrapper getEmailsAdmin throws the response
body's error field, but the calling page's catch block (Admin.loadEmails)
toasts the fixed string "Failed to load emails" rather than the thrown
message; and a present-but-empty detail field also falls back to the generic
message (JS truthiness), contradicting "when that field is present". -/
theorem C2_counterexample_fixed_toast :
    errMessage getEmailsAdmin { detail := none, error := some "Database unavailable" } =
      "Database unavailable" ∧
    loadEmailsCatchToast "Database unavailable" = "Failed to load emails" ∧
    "Failed to load emails" ≠ "Database unavailable" ∧
    errMessage getAllUsers { detail := some "", error := none } = "Failed to get users" := by
  decide

/-- Claim C2 as amended: on request failure every ApiContext wrapper never
returns a value but throws an Error whose message is the consulted
detail/error field when that field is present and non-empty, and the fixed
generic "Failed to ..." message otherwise; Home.handleAnalyze toasts the
thrown message itself, while Admin.loadEmails toasts a fixed failure
string. -/
theorem C2_amended_wrapper_error_contract :
    (∀ w ∈ apiWrappers, ∀ b : RespBody,
      wrapperFailureResult w b = Except.error (errMessage w b)) ∧
    (∀ w ∈ apiWrappers, ∀ b : RespBody, ∀ v : String,
      selectedErrField w b = some v → v ≠ "" → errMessage w b = v) ∧
    (∀ w ∈ apiWrappers, ∀ b : RespBody,
      selectedErrField w b = none ∨ selectedErrField w b = some "" →
      errMessage w b = w.genericMsg) ∧
    (∀ m : String, homeAnalyzeCatchToast m = m) ∧
    (∀ m : String, loadEmailsCatchToast m = "Failed to load emails") := by
  refine ⟨fun w _ b => rfl, ?_, ?_, fun _ => rfl, fun _ => rfl⟩
  · intro w _ b v hv hne
    simp [errMessage, hv, jsOrString, hne]
  · intro w _ b h
    rcases h with h | h <;> simp [errMessage, h, jsOrString]

/-- Claim C2 witness: the amended theorem applied to the sendEmail wrapper
and a failed response carrying a non-empty error field. -/
theorem C2_amended_wrapper_error_contract_witness :
    errMessage sendEmail { detail := none, error := some "SendGrid rejected the request" } =
      "SendGrid rejected the request" :=
  C2_amended_wrapper_error_contract.2.1 sendEmail (by decide)
    { detail := none, error := some "SendGrid rejected the request" }
    "SendGrid rejected the request" rfl (by decide)

/-- Claim C3: the user dashboard only submits task statuses from the
pending/in_progress/completed enumeration; the Start button submits
'in_progress' and is rendered exactly for tasks with status 'pending', the
Complete button submits 'completed' and is rendered exactly for tasks whose
status is not 'completed', and a task with status 'completed' gets no
status-update control at all. -/
theorem C3_task_status_controls (status : String) :
    (∀ b ∈ renderedTaskButtons status, taskButtonSubmits b ∈ taskStatusEnum) ∧
    (TaskButton.start ∈ renderedTaskButtons status ↔ status = "pending") ∧
    taskButtonSubmits TaskButton.start = "in_progress" ∧
    (TaskButton.complete ∈ renderedTaskButtons status ↔ status ≠ "completed") ∧
    taskButtonSubmits TaskButton.complete = "completed" ∧
    (status = "completed" → renderedTaskButtons status = []) := by
  by_cases hc : status = "completed"
  · subst hc
    decide
  · by_cases hp : status = "pending"
    · subst hp
      decide
    · simp [renderedTaskButtons, taskButtonSubmits, taskStatusEnum, hc, hp]

/-- Claim C3 witness: the theorem applied to the statuses "pending" and
"completed". -/
theorem C3_task_status_controls_witness :
    TaskButton.start ∈ renderedTaskButtons "pending" ∧
    renderedTaskButtons "completed" = [] :=
  ⟨(C3_task_status_controls "pending").2.1.mpr rfl,
   (C3_task_status_controls "completed").2.2.2.2.2 rfl⟩

/-- Claim C4: the admin project form offers exactly the four status options
active/completed/on_hold/cancelled; the badge mapping assigns them the
pairwise distinct variants success/primary/warning/danger; every status
outside the enumeration maps to the fallback variant "secondary"; and the
Manager page's variants-object mapping agrees with Admin's switch
everywhere. -/
theorem C4_project_status_enum :
    projectFormStatusOptions = ["active", "completed", "on_hold", "cancelled"] ∧
    projectFormStatusOptions.map getStatusBadgeVariant =
      ["success", "primary", "warning", "danger"] ∧
    (projectFormStatusOptions.map getStatusBadgeVariant).Nodup ∧
    (∀ s : String, s ∉ projectFormStatusOptions → getStatusBadgeVariant s = "secondary") ∧
    (∀ s : String, managerGetStatusBadgeBg s = getStatusBadgeVariant s) := by
  refine ⟨rfl, by decide, by decide, ?_, ?_⟩
  · intro s hs
    simp only [projectFormStatusOptions, List.mem_cons, List.not_mem_nil, or_false,
      not_or] at hs
    obtain ⟨h1, h2, h3, h4⟩ := hs
    simp [getStatusBadgeVariant, h1, h2, h3, h4]
  · intro s
    by_cases h1 : s = "active"
    · subst h1
      decide
    by_cases h2 : s = "completed"
    · subst h2
      decide
    by_cases h3 : s = "on_hold"
    · subst h3
      decide
    by_cases h4 : s = "cancelled"
    · subst h4
      decide
    have e1 : (s == "active") = false := beq_eq_false_iff_ne.mpr h1
    have e2 : (s == "completed") = false := beq_eq_false_iff_ne.mpr h2
    have e3 : (s == "on_hold") = false := beq_eq_false_iff_ne.mpr h3
    have e4 : (s == "cancelled") = false := beq_eq_false_iff_ne.mpr h4
    simp [managerGetStatusBadgeBg, managerStatusVariants, List.lookup, e1, e2, e3, e4,
      jsOrString, getStatusBadgeVariant, h1, h2, h3, h4]

/-- Claim C4 witness: the theorem applied to the out-of-enumeration status
"draft". -/
theorem C4_project_status_enum_witness :
    getStatusBadgeVariant "draft" = "secondary" :=
  C4_project_status_enum.2.2.2.1 "draft" (by decide)

/-- Claim C5, counterexample: no HTTP request issued by frontend code under
src/ (neither an ApiContext wrapper nor a direct fetch call) has a URL
template mentioning the tracking-pixel route /track/open, so "some frontend
call targets /track/open/..." is false. -/
theorem C5_counterexample_no_track_open_call :
    ¬ ∃ p ∈ frontendRequestPaths, targetsTrackOpen p = true := by decide

/-- Claim C5 as amended: the ApiContext wrappers target exactly the
documented CRUD paths (getAllUsers GETs /api/admin/users, getAllMeetings
GETs /api/admin/meetings, getAllProjects GETs /api/admin/projects, sendEmail
POSTs /send_email), while /track/open/... is a backend endpoint embedded in
outgoing email and no frontend call targets it. -/
theorem C5_amended_rest_paths :
    getAllUsers.method = HttpMethod.get ∧
    getAllUsers.path = [Seg.lit "/api/admin/users"] ∧
    getAllMeetings.method = HttpMethod.get ∧
    getAllMeetings.path = [Seg.lit "/api/admin/meetings"] ∧
    getAllProjects.method = HttpMethod.get ∧
    getAllProjects.path = [Seg.lit "/api/admin/projects"] ∧
    sendEmail.method = HttpMethod.post ∧
    sendEmail.path = [Seg.lit "/send_email"] ∧
    frontendRequestPaths.any targetsTrackOpen = false := by decide

/-- Claim C6: each invocation of the analyze-transcript and send-email flows
issues at most one HTTP request (so never a second request for the same
invocation), and on a failed request the failure is reported by exactly one
error toast with no delay event before it. -/
theorem C6_single_request_no_retry :
    (∀ r : HttpResult AnalyzeResp, requestCount (handleAnalyzeEvents r) ≤ 1) ∧
    (∀ (f : EmailFields) (r : HttpResult SendResp),
      requestCount (handleSendEmailEvents f r) ≤ 1) ∧
    (∀ b : RespBody,
      errorToastCount (handleAnalyzeEvents (HttpResult.failure b)) = 1 ∧
      delayCount (handleAnalyzeEvents (HttpResult.failure b)) = 0) ∧
    (∀ (f : EmailFields) (b : RespBody),
      errorToastCount (handleSendEmailEvents f (HttpResult.failure b)) = 1 ∧
      delayCount (handleSendEmailEvents f (HttpResult.failure b)) = 0) := by
  refine ⟨?_, ?_, ?_, ?_⟩
  · intro r
    cases r with
    | failure b => simp [handleAnalyzeEvents, requestCount, isRequestEv]
    | ok resp =>
      by_cases h : resp.success = true <;>
        simp [handleAnalyzeEvents, requestCount, isRequestEv, h]
  · intro f r
    by_cases hv : f.recipient_email = "" ∨ f.subject = "" ∨ f.content = ""
    · simp [handleSendEmailEvents, hv, requestCount, isRequestEv]
    · cases r with
      | failure b => simp [handleSendEmailEvents, hv, requestCount, isRequestEv]
      | ok resp =>
        by_cases h : resp.success = true <;>
          simp [handleSendEmailEvents, hv, requestCount, isRequestEv, h]
  · intro b
    constructor <;>
      simp [handleAnalyzeEvents, errorToastCount, delayCount, isErrorToastEv, isDelayEv]
  · intro f b
    by_cases hv : f.recipient_email = "" ∨ f.subject = "" ∨ f.content = "" <;>
      constructor <;>
        simp [handleSendEmailEvents, hv, errorToastCount, delayCount, isErrorToastEv,
          isDelayEv]

/-- Claim C7: when the tracking-pixel URL of an email is hit, the server logs
an "open" event and increments the email's open counter / timestamp row
(backend modelled from the spec; see `trackOpenHit`). -/
theorem C7_track_open_hit (e : EmailRow) (now : Nat) :
    (trackOpenHit e now).open_count = e.open_count + 1 ∧
    (trackOpenHit e now).opened = true ∧
    (trackOpenHit e now).last_opened = some now ∧
    ("open", now) ∈ (trackOpenHit e now).events := by
  refine ⟨rfl, rfl, rfl, ?_⟩
  simp [trackOpenHit]

/-- Claim C8, counterexample: while the auth state is still loading,
ProtectedRoute renders the spinner for an unauthenticated user, not the
redirect to /auth the claim asserts. -/
theorem C8_counterexample_loading_state :
    protectedRoute false { loading := true, isAuthenticated := false, user := none } =
      Rendered.spinner ∧
    Rendered.spinner ≠ Rendered.redirect "/auth" := by decide

/-- Claim C8 as amended: ProtectedRoute never renders the protected children
for an unauthenticated user, and once the auth state has finished loading it
returns the redirect to /auth; for an adminOnly route it never renders the
children for an authenticated user whose role is not 'admin', and once
loading has finished it returns the redirect to /dashboard; while loading it
renders a spinner. The app wraps /dashboard (any user) and / and /admin
(adminOnly) this way. -/
theorem C8_amended_protected_route :
    (∀ (adminOnly : Bool) (s : AuthState), s.isAuthenticated = false →
      protectedRoute adminOnly s ≠ Rendered.children) ∧
    (∀ (adminOnly : Bool) (s : AuthState), s.loading = false →
      s.isAuthenticated = false →
      protectedRoute adminOnly s = Rendered.redirect "/auth") ∧
    (∀ s : AuthState, s.isAuthenticated = true →
      optChainRole s.user ≠ some "admin" →
      protectedRoute true s ≠ Rendered.children) ∧
    (∀ s : AuthState, s.loading = false → s.isAuthenticated = true →
      optChainRole s.user ≠ some "admin" →
      protectedRoute true s = Rendered.redirect "/dashboard") ∧
    protectedRoutes = [("/dashboard", false), ("/", true), ("/admin", true)] := by
  refine ⟨?_, ?_, ?_, ?_, rfl⟩
  · intro adminOnly s h
    by_cases hl : s.loading = true <;> simp [protectedRoute, h, hl]
  · intro adminOnly s hl h
    simp [protectedRoute, h, hl]
  · intro s h hr
    by_cases hl : s.loading = true <;> simp [protectedRoute, h, hr, hl]
  · intro s hl h hr
    simp [protectedRoute, h, hr, hl]

/-- Claim C8 witness: the amended theorem applied to a loaded, authenticated
state whose user role is "user" on an adminOnly route. -/
theorem C8_amended_protected_route_witness :
    protectedRoute true
        { loading := false, isAuthenticated := true, user := some { role := "user" } } =
      Rendered.redirect "/dashboard" :=
  C8_amended_protected_route.2.2.2.1
    { loading := false, isAuthenticated := true, user := some { role := "user" } }
    rfl rfl (by decide)

/-- Claim C9: a selected file whose MIME type is not text/plain, or whose
size exceeds 5 * 1024 * 1024 = 5242880 bytes, is rejected with an error toast
and leaves the transcript and stored file unchanged; a file passing both
checks replaces the transcript with the file's content and stores the
file. -/
theorem C9_file_upload (s : TIState) (f : SelectedFile) :
    (f.ftype ≠ "text/plain" →
      handleFileUpload s (some f) = (s, [Toast.error "Please select a .txt file"])) ∧
    (f.ftype = "text/plain" → 5 * 1024 * 1024 < f.size →
      handleFileUpload s (some f) = (s, [Toast.error "File size must be less than 5MB"])) ∧
    (f.ftype = "text/plain" → f.size ≤ 5 * 1024 * 1024 →
      handleFileUpload s (some f) =
        ({ transcript := f.content, file := some f },
         [Toast.success ("File \"" ++ f.name ++ "\" loaded successfully")])) := by
  refine ⟨?_, ?_, ?_⟩
  · intro h
    simp [handleFileUpload, h]
  · intro h hs
    simp [handleFileUpload, h, hs]
  · intro h hs
    simp [handleFileUpload, h, Nat.not_lt.mpr hs]

/-- Claim C9 witness: the theorem applied to a PDF file (wrong MIME type). -/
theorem C9_file_upload_witness :
    handleFileUpload { transcript := "old", file := none }
        (some { ftype := "application/pdf", size := 10, name := "a.pdf", content := "x" }) =
      ({ transcript := "old", file := none }, [Toast.error "Please select a .txt file"]) :=
  (C9_file_upload { transcript := "old", file := none }
    { ftype := "application/pdf", size := 10, name := "a.pdf", content := "x" }).1
    (by decide)

/-- Claim C10: filteredUsers is an order-preserving sublist of the loaded
list; with all three filters empty it is the full list; and with only a
non-empty search filter a user matches exactly when the lowercased search
occurs contiguously in the lowercased full name, email, or username. -/
theorem C10_filtered_users (flt : UserFilters) (users : List UserRow) :
    List.Sublist (filteredUsers flt users) users ∧
    (flt.search = "" → flt.status = "" → flt.role = "" →
      filteredUsers flt users = users) ∧
    (∀ (q : String) (u : UserRow), q ≠ "" →
      (userMatches { search := q, status := "", role := "" } u = true ↔
        ((∃ l r, u.full_name.toLower.data = l ++ q.toLower.data ++ r) ∨
         (∃ l r, u.email.toLower.data = l ++ q.toLower.data ++ r) ∨
         (∃ l r, u.username.toLower.data = l ++ q.toLower.data ++ r)))) := by
  refine ⟨List.filter_sublist users, ?_, ?_⟩
  · intro h1 h2 h3
    apply List.filter_eq_self.mpr
    intro u _
    simp [userMatches, h1, h2, h3]
  · intro q u hq
    simp [userMatches, jsIncludesLower, occursIn_iff, hq]
    exact or_assoc

/-- Claim C10 witness: the theorem applied to empty filters and a one-user
list. -/
theorem C10_filtered_users_witness :
    filteredUsers { search := "", status := "", role := "" }
        [{ full_name := "Alice Smith", email := "alice@example.com", username := "alice",
           status := "registered", role := "admin" }] =
      [{ full_name := "Alice Smith", email := "alice@example.com", username := "alice",
         status := "registered", role := "admin" }] :=
  (C10_filtered_users { search := "", status := "", role := "" }
    [{ full_name := "Alice Smith", email := "alice@example.com", username := "alice",
       status := "registered", role := "admin" }]).2.1 rfl rfl rfl

end Minumate
